import Mathlib

/-!
Shallow embedding of the Elfsquad showroom iframe client
(src/index.ts, class ElfsquadShowroom) and proofs of its
specified properties.

The host environment (DOM document, ambient message channel,
JSON.parse) is modelled by explicit parameters; the class methods are
translated into pure Lean functions over that model, with DOM
mutations and posted messages made explicit as effect logs.
-/

/-- A DOM node returned by document.querySelector: either an
HTMLElement or some other kind of node (for example an SVG element,
which is an Element but not an HTMLElement). Nodes carry a numeric
identity. -/
inductive DomNode where
  | htmlElement (id : Nat)
  | otherNode (id : Nat)
deriving DecidableEq, Repr

/-- The ambient document, reduced to the one operation the source
uses: querySelector, which may resolve a selector string to a node or
to nothing. -/
structure Dom where
  querySelector : String → Option DomNode

/-- The container option of ElfsquadShowroomOptions: an HTMLElement
(given by its identity) or a query selector string, mirroring the
TypeScript union type HTMLElement | string. -/
inductive ContainerSpec where
  | element (id : Nat)
  | selector (s : String)
deriving DecidableEq, Repr

/-- Options for initializing the showroom, mirroring
ElfsquadShowroomOptions. -/
structure ElfsquadShowroomOptions where
  container : ContainerSpec
  url : String
deriving DecidableEq, Repr

/-- The errors thrown by the source, one constructor per distinct
throw site. -/
inductive ShowroomError where
  | containerNotFound
  | containerType
  | noContentWindow
deriving DecidableEq, Repr

/-- The literal message string each throw site passes to new Error. -/
def ShowroomError.message : ShowroomError → String
  | .containerNotFound => "Container not found"
  | .containerType => "Container must be an HTMLElement"
  | .noContentWindow => "Native element does not have a content window"

/-- The inline style assignments render performs on the iframe. -/
structure IframeStyle where
  width : String
  height : String
  border : String
  margin : String
  padding : String
  display : String
deriving DecidableEq, Repr

/-- The iframe element created by render: its src, its style, and
whether the host gives it an accessible content window (the source
never sets contentWindow itself; the browser does). -/
structure Iframe where
  src : String
  style : IframeStyle
  contentWindow : Option Unit
deriving DecidableEq, Repr

/-- Observable side effects of construction: iframes created via
document.createElement, appendChild calls (container id, child), and
the number of message listeners registered on window. -/
structure Effects where
  created : List Iframe
  appended : List (Nat × Iframe)
  listeners : Nat
deriving DecidableEq, Repr

/-- The empty effect log, before construction runs. -/
def Effects.empty : Effects := { created := [], appended := [], listeners := 0 }

/-- Translation of ElfsquadShowroom.getContainer: a selector string is
resolved through document.querySelector, throwing when nothing
matches or when the match is not an HTMLElement; a directly supplied
HTMLElement is returned as is. -/
def getContainer (dom : Dom) (options : ElfsquadShowroomOptions) :
    Except ShowroomError Nat :=
  match options.container with
  | .selector s =>
    match dom.querySelector s with
    | none => .error .containerNotFound
    | some (.htmlElement i) => .ok i
    | some (.otherNode _) => .error .containerType
  | .element i => .ok i

/-- The style render assigns: full size, no border, margin or padding,
block display. -/
def renderStyle : IframeStyle :=
  { width := "100%", height := "100%", border := "none",
    margin := "0", padding := "0", display := "block" }

/-- Translation of ElfsquadShowroom.render: create an iframe, set its
src to the url option and its style, append it to the container.
The cw parameter is the content window the host environment attaches
to the iframe once it is in the document. -/
def render (cw : Option Unit) (containerId : Nat)
    (options : ElfsquadShowroomOptions) (fx : Effects) : Iframe × Effects :=
  let iframe : Iframe :=
    { src := options.url, style := renderStyle, contentWindow := cw }
  (iframe,
    { fx with
      created := fx.created ++ [iframe],
      appended := fx.appended ++ [(containerId, iframe)] })

/-- Translation of ElfsquadShowroom.registerEventListeners as far as
construction effects are concerned: it registers three message
listeners on window (two structured ones and the legacy one). The
dispatch behavior of these listeners is modelled separately below. -/
def registerEventListenersFx (fx : Effects) : Effects :=
  { fx with listeners := fx.listeners + 3 }

/-- The constructed instance state: the iframe, the resolved
container, and the callback registry (a JS object mapping event name
strings to arrays of callbacks; callbacks are modelled by numeric
identifiers). -/
structure ElfsquadShowroom where
  nativeElement : Iframe
  container : Nat
  callbacks : List (String × List Nat)
deriving DecidableEq, Repr

/-- Translation of the ElfsquadShowroom constructor: resolve the
container (throwing on failure, before any other work), render the
iframe into it, then register the message listeners. An exception
aborts construction, leaving the effect log as it stood at the throw
site. -/
def constructShowroom (dom : Dom) (cw : Option Unit)
    (options : ElfsquadShowroomOptions) (fx : Effects) :
    Except (ShowroomError × Effects) (ElfsquadShowroom × Effects) :=
  match getContainer dom options with
  | .error e => .error (e, fx)
  | .ok cid =>
    let (iframe, fx1) := render cw cid options fx
    let fx2 := registerEventListenersFx fx1
    .ok ({ nativeElement := iframe, container := cid, callbacks := [] }, fx2)

/-!
JavaScript values and the outbound envelope.

Inbound message payloads and envelope arguments are untyped JS values
in the source; they are modelled by a small JS value type with the
property-access and equality behavior the listeners rely on.
-/

/-- A JavaScript value, restricted to the shapes the source touches:
undefined, null, strings, and plain objects (ordered field lists). -/
inductive JSValue where
  | undefined
  | null
  | str (s : String)
  | obj (fields : List (String × JSValue))

/-- Strict equality of a JS value against a string literal, as used by
the listeners in comparisons of the form value === "literal". -/
def JSValue.isStr : JSValue → String → Bool
  | .str t, s => t == s
  | _, _ => false

/-- JS property access v[k] on a value known not to be null or
undefined: objects yield the first field named k, or undefined when
absent; primitives such as strings yield undefined. -/
def JSValue.getProp : JSValue → String → JSValue
  | .obj fields, k =>
    match fields.lookup k with
    | some v => v
    | none => .undefined
  | _, _ => .undefined

/-- Optional-chaining access v?.k as in event.data?.name: null and
undefined yield undefined instead of throwing; otherwise ordinary
property access. -/
def JSValue.getPropOpt : JSValue → String → JSValue
  | .null, _ => .undefined
  | .undefined, _ => .undefined
  | v, k => v.getProp k

/-- Property access v[k] on an arbitrary value, as in json.action
after JSON.parse: throws (error) when v is null or undefined. -/
def JSValue.getPropExc : JSValue → String → Except Unit JSValue
  | .null, _ => .error ()
  | .undefined, _ => .error ()
  | v, k => .ok (v.getProp k)

/-- The string JavaScript coerces a value to when it is passed to
JSON.parse, which takes a string argument: strings pass through,
plain objects become the literal text that Object.prototype.toString
produces, null and undefined become their names. -/
def JSValue.coerceToString : JSValue → String
  | .str s => s
  | .obj _ => "[object Object]"
  | .null => "null"
  | .undefined => "undefined"

/-- The outbound command envelope built by the public methods:
a name and optional args object. -/
structure Envelope where
  name : String
  args : Option JSValue

/-- A message posted into the content window: the envelope and the
target origin string passed to postMessage. -/
structure PostedMessage where
  data : Envelope
  targetOrigin : String

/-- The outcome of one sendMessage call: the error thrown, if any, and
the list of messages actually posted. -/
structure SendResult where
  error : Option ShowroomError
  posted : List PostedMessage

/-- Translation of ElfsquadShowroom.sendMessage: throw when the iframe
has no content window, posting nothing; otherwise post exactly the
given envelope with the wildcard target origin. -/
def sendMessage (iframe : Iframe) (data : Envelope) : SendResult :=
  match iframe.contentWindow with
  | none => { error := some .noContentWindow, posted := [] }
  | some _ =>
    { error := none, posted := [{ data := data, targetOrigin := "*" }] }

/-- Translation of ElfsquadShowroom.home. -/
def ElfsquadShowroom.home (s : ElfsquadShowroom) : SendResult :=
  sendMessage s.nativeElement { name := "elfsquad.visualization.home", args := none }

/-- Translation of ElfsquadShowroom.toggleFootprint. -/
def ElfsquadShowroom.toggleFootprint (s : ElfsquadShowroom) : SendResult :=
  sendMessage s.nativeElement
    { name := "elfsquad.visualization.toggleFootprint", args := none }

/-- Translation of ElfsquadShowroom.changeLanguage. -/
def ElfsquadShowroom.changeLanguage (s : ElfsquadShowroom)
    (languageIso : String) : SendResult :=
  sendMessage s.nativeElement
    { name := "elfsquad.localization.changeLanguage",
      args := some (.obj [("languageIso", .str languageIso)]) }

/-- Translation of ElfsquadShowroom.screenshot. -/
def ElfsquadShowroom.screenshot (s : ElfsquadShowroom) : SendResult :=
  sendMessage s.nativeElement
    { name := "elfsquad.visualization.screenshot", args := none }

/-- Translation of ElfsquadShowroom.enableConfigurationUpdates. -/
def ElfsquadShowroom.enableConfigurationUpdates (s : ElfsquadShowroom) : SendResult :=
  sendMessage s.nativeElement
    { name := "elfsquad.enableConfigurationUpdates", args := none }

/-- Translation of ElfsquadShowroom.disableConfigurationUpdates. -/
def ElfsquadShowroom.disableConfigurationUpdates (s : ElfsquadShowroom) : SendResult :=
  sendMessage s.nativeElement
    { name := "elfsquad.disableConfigurationUpdates", args := none }

/-- Translation of ElfsquadShowroom.navigateTo. -/
def ElfsquadShowroom.navigateTo (s : ElfsquadShowroom) (url : String) : SendResult :=
  sendMessage s.nativeElement
    { name := "elfsquad.navigation.navigateTo",
      args := some (.obj [("url", .str url)]) }

/-- The seven outbound command methods, with their primitive
arguments, as one type so properties can quantify over them. -/
inductive OutboundMethod where
  | home
  | toggleFootprint
  | screenshot
  | changeLanguage (languageIso : String)
  | enableConfigurationUpdates
  | disableConfigurationUpdates
  | navigateTo (url : String)

/-- Run one outbound method on an instance. -/
def runMethod (s : ElfsquadShowroom) : OutboundMethod → SendResult
  | .home => s.home
  | .toggleFootprint => s.toggleFootprint
  | .screenshot => s.screenshot
  | .changeLanguage iso => s.changeLanguage iso
  | .enableConfigurationUpdates => s.enableConfigurationUpdates
  | .disableConfigurationUpdates => s.disableConfigurationUpdates
  | .navigateTo url => s.navigateTo url

/-!
Callback registry and inbound dispatch.

Callbacks are modelled by numeric identifiers together with a
behavior function telling, for each callback, whether invoking it
throws. Dispatch produces the list of invocations performed (callback
identifier paired with the payload it received) plus exception
information.
-/

/-- The ViewerEvent enum values, as the strings they are in the
source. -/
def ViewerEvent.ScreenshotTaken : String := "elfsquad.visualization.screenshotTaken"

/-- The ViewerEvent.ConfigurationUpdated enum value. -/
def ViewerEvent.ConfigurationUpdated : String := "elfsquad.configurationUpdated"

/-- The ViewerEvent.RequestQuote enum value. -/
def ViewerEvent.RequestQuote : String := "custom:REQUEST_QUOTE"

/-- The callback registry: the callbacks object of the class, a JS
object whose keys are event name strings and whose values are arrays
of callbacks, in insertion order. -/
abbrev Registry := List (String × List Nat)

/-- Reading this.callbacks[key]: the array stored under the key, or
none when the key is absent (in JS, undefined — the only falsy case,
since arrays are truthy even when empty). -/
def findCallbacks : Registry → String → Option (List Nat)
  | [], _ => none
  | (k, cbs) :: rest, key =>
    if k == key then some cbs else findCallbacks rest key

/-- The first half of addCallback: when this.callbacks[key] is absent,
assign an empty array under the key (JS object assignment appends a
new key in insertion order). -/
def ensureKey (r : Registry) (key : String) : Registry :=
  match findCallbacks r key with
  | none => r ++ [(key, [])]
  | some _ => r

/-- The second half of addCallback: this.callbacks[key].push(cb),
appending in place to the array under the key. -/
def pushKey : Registry → String → Nat → Registry
  | [], _, _ => []
  | (k, cbs) :: rest, key, cb =>
    if k == key then (k, cbs ++ [cb]) :: rest
    else (k, cbs) :: pushKey rest key cb

/-- Translation of ElfsquadShowroom.addCallback: ensure the entry
exists, then push the callback onto it. -/
def addCallback (r : Registry) (key : String) (cb : Nat) : Registry :=
  pushKey (ensureKey r key) key cb

/-- Translation of ElfsquadShowroom.onScreenshot. -/
def onScreenshot (r : Registry) (cb : Nat) : Registry :=
  addCallback r ViewerEvent.ScreenshotTaken cb

/-- Translation of ElfsquadShowroom.onRequestQuote. -/
def onRequestQuote (r : Registry) (cb : Nat) : Registry :=
  addCallback r ViewerEvent.RequestQuote cb

/-- Translation of ElfsquadShowroom.onConfigurationUpdate. -/
def onConfigurationUpdate (r : Registry) (cb : Nat) : Registry :=
  addCallback r ViewerEvent.ConfigurationUpdated cb

/-- One performed invocation: which callback ran and the payload it
received. -/
abbrev Invocation := Nat × JSValue

/-- Array.prototype.forEach over the callback array: invoke each
callback in order with the same data; a callback that throws (beh cb
true) stops the iteration and the exception propagates (second
component true). -/
def runCallbacks (beh : Nat → Bool) : List Nat → JSValue → List Invocation × Bool
  | [], _ => ([], false)
  | cb :: rest, data =>
    if beh cb then ([(cb, data)], true)
    else
      let (invs, exc) := runCallbacks beh rest data
      ((cb, data) :: invs, exc)

/-- Translation of ElfsquadShowroom.executeCallbacks: return early
when no entry exists under the key, otherwise forEach over the stored
callbacks. The registry is only read, never written. -/
def executeCallbacks (beh : Nat → Bool) (r : Registry) (key : String)
    (data : JSValue) : List Invocation × Bool :=
  match findCallbacks r key with
  | none => ([], false)
  | some cbs => runCallbacks beh cbs data

/-- One of the two structured listeners registered through
registerEventListener: on a message event, if event.data?.name equals
the listener key, run the registered handler, which dispatches
event.data.args to the callbacks stored under the event key. The
boolean is true when an exception escapes the listener into the host
event loop. -/
def structuredListener (beh : Nat → Bool) (r : Registry)
    (key : String) (eventKey : String) (data : JSValue) :
    List Invocation × Bool :=
  if (data.getPropOpt "name").isStr key then
    executeCallbacks beh r eventKey (data.getProp "args")
  else
    ([], false)

/-- The body of the try block of the legacy listener: JSON.parse the
event data (a non-string is first coerced to a string; a parse
failure throws), return unless the action field is the string
createQuotation, otherwise dispatch an object carrying the argument
field as configurationId to the RequestQuote callbacks. -/
def legacyListenerBody (parseJSON : String → Option JSValue)
    (beh : Nat → Bool) (r : Registry) (data : JSValue) :
    List Invocation × Bool :=
  match parseJSON data.coerceToString with
  | none => ([], true)
  | some json =>
    match json.getPropExc "action" with
    | .error _ => ([], true)
    | .ok action =>
      if !action.isStr "createQuotation" then ([], false)
      else
        match json.getPropExc "argument" with
        | .error _ => ([], true)
        | .ok argument =>
          executeCallbacks beh r ViewerEvent.RequestQuote
            (.obj [("configurationId", argument)])

/-- The legacy listener as registered: its whole body sits in a try
block whose catch ignores every error, so no exception ever escapes
it — invocations performed before a throw remain performed. -/
def legacyListener (parseJSON : String → Option JSValue)
    (beh : Nat → Bool) (r : Registry) (data : JSValue) :
    List Invocation × Bool :=
  ((legacyListenerBody parseJSON beh r data).1, false)

/-- Delivery of one message event to the three listeners
registerEventListeners installed, in registration order: the
screenshotTaken structured listener, the configurationUpdated
structured listener, then the legacy listener. The host event loop
runs every listener even when an earlier one threw; the second
component records, per listener, whether an exception escaped it. -/
def deliverMessage (parseJSON : String → Option JSValue)
    (beh : Nat → Bool) (r : Registry) (data : JSValue) :
    List Invocation × List Bool :=
  let l1 := structuredListener beh r ViewerEvent.ScreenshotTaken
    ViewerEvent.ScreenshotTaken data
  let l2 := structuredListener beh r ViewerEvent.ConfigurationUpdated
    ViewerEvent.ConfigurationUpdated data
  let l3 := legacyListener parseJSON beh r data
  (l1.1 ++ l2.1 ++ l3.1, [l1.2, l2.2, l3.2])

/-- Delivery of a sequence of message events. No listener body writes
to the callback registry, so every delivery reads the same registry. -/
def deliverSeq (parseJSON : String → Option JSValue) (beh : Nat → Bool)
    (r : Registry) : List JSValue → List (List Invocation)
  | [] => []
  | d :: ds =>
    (deliverMessage parseJSON beh r d).1 :: deliverSeq parseJSON beh r ds

/-- Delivery of one message event together with the registry state
it leaves behind: the dispatch path only ever reads this.callbacks
(executeCallbacks returns on a missing key instead of creating one),
so the registry after delivery is the registry before it. -/
def onMessage (parseJSON : String → Option JSValue) (beh : Nat → Bool)
    (r : Registry) (data : JSValue) :
    Registry × List Invocation × List Bool :=
  (r, deliverMessage parseJSON beh r data)

/-!
Concrete fixtures used to instantiate the theorems below on closed
inputs.
-/

/-- The subscriber list currently stored under a key, empty when the
key is absent. -/
def subscribers (r : Registry) (key : String) : List Nat :=
  (findCallbacks r key).getD []

/-- A concrete iframe as render produces it. -/
def sampleIframe (cw : Option Unit) : Iframe :=
  { src := "https://automotive.elfsquad.io", style := renderStyle,
    contentWindow := cw }

/-- A concrete constructed instance. -/
def sampleShowroom (cw : Option Unit) : ElfsquadShowroom :=
  { nativeElement := sampleIframe cw, container := 0, callbacks := [] }

/-- The raw legacy quotation payload from the spec examples. -/
def quotePayload : String :=
  "\x7b\"action\":\"createQuotation\",\"argument\":\"abc123\"\x7d"

/-- A raw legacy payload with a different action. -/
def otherActionPayload : String := "\x7b\"action\":\"other\"\x7d"

/-- A concrete stand-in for the JSON.parse oracle of the host: it
parses the two fixture payloads and fails on everything else. -/
def parseFixture : String → Option JSValue := fun s =>
  if s == quotePayload then
    some (.obj [("action", .str "createQuotation"), ("argument", .str "abc123")])
  else if s == otherActionPayload then
    some (.obj [("action", .str "other")])
  else none

/-- A callback behavior under which no callback throws. -/
def behCalm : Nat → Bool := fun _ => false

/-- A callback behavior under which every callback throws. -/
def behThrowing : Nat → Bool := fun _ => true

/-!
Theorems.
-/

/-- C1: constructing with a selector-string container fails with the
container-not-found error when the selector matches no node, fails
with the container-type error when it matches a node that is not an
HTMLElement, and succeeds when it matches an HTMLElement, appending to
that element an iframe whose src is the given url option. -/
theorem construction_with_selector (dom : Dom) (cw : Option Unit)
    (s url : String) (fx : Effects) :
    (dom.querySelector s = none →
      constructShowroom dom cw { container := .selector s, url := url } fx =
        .error (.containerNotFound, fx)) ∧
    (∀ i, dom.querySelector s = some (.otherNode i) →
      constructShowroom dom cw { container := .selector s, url := url } fx =
        .error (.containerType, fx)) ∧
    (∀ i, dom.querySelector s = some (.htmlElement i) →
      ∃ inst fx2,
        constructShowroom dom cw { container := .selector s, url := url } fx =
          .ok (inst, fx2) ∧
        inst.nativeElement.src = url ∧
        (i, inst.nativeElement) ∈ fx2.appended) := by
  refine ⟨fun h => ?_, fun i h => ?_, fun i h => ?_⟩
  · simp [constructShowroom, getContainer, h]
  · simp [constructShowroom, getContainer, h]
  · have hc : constructShowroom dom cw { container := .selector s, url := url } fx =
        .ok ({ nativeElement :=
                 { src := url, style := renderStyle, contentWindow := cw },
               container := i, callbacks := [] },
             registerEventListenersFx
               { fx with
                 created := fx.created ++
                   [{ src := url, style := renderStyle, contentWindow := cw }],
                 appended := fx.appended ++
                   [(i, { src := url, style := renderStyle, contentWindow := cw })] }) := by
      simp [constructShowroom, getContainer, h, render, registerEventListenersFx]
    exact ⟨_, _, hc, rfl, by simp [registerEventListenersFx]⟩

/-- Witness for C1 at three concrete documents. -/
theorem construction_with_selector_witness :
    (constructShowroom ⟨fun _ => none⟩ none
      { container := .selector "#showroom", url := "u" } Effects.empty =
        .error (.containerNotFound, Effects.empty)) ∧
    (constructShowroom ⟨fun _ => some (.otherNode 5)⟩ none
      { container := .selector "#showroom", url := "u" } Effects.empty =
        .error (.containerType, Effects.empty)) ∧
    (∃ inst fx2,
      constructShowroom ⟨fun _ => some (.htmlElement 7)⟩ (some ())
        { container := .selector "#showroom", url := "u" } Effects.empty =
          .ok (inst, fx2) ∧
      inst.nativeElement.src = "u" ∧
      (7, inst.nativeElement) ∈ fx2.appended) :=
  ⟨(construction_with_selector ⟨fun _ => none⟩ none "#showroom" "u"
      Effects.empty).1 rfl,
   (construction_with_selector ⟨fun _ => some (.otherNode 5)⟩ none "#showroom"
      "u" Effects.empty).2.1 5 rfl,
   (construction_with_selector ⟨fun _ => some (.htmlElement 7)⟩ (some ())
      "#showroom" "u" Effects.empty).2.2 7 rfl⟩

/-- C7: when construction fails, the effect log is untouched: no
iframe was created, nothing was appended to any container, and no
message listener was registered. -/
theorem construction_failure_no_side_effects (dom : Dom) (cw : Option Unit)
    (options : ElfsquadShowroomOptions) (e : ShowroomError) (fx2 : Effects)
    (h : constructShowroom dom cw options Effects.empty = .error (e, fx2)) :
    fx2.created = [] ∧ fx2.appended = [] ∧ fx2.listeners = 0 := by
  unfold constructShowroom at h
  cases hg : getContainer dom options with
  | error e2 =>
    rw [hg] at h
    cases h
    exact ⟨rfl, rfl, rfl⟩
  | ok cid =>
    rw [hg] at h
    simp [render, registerEventListenersFx] at h

/-- Witness for C7 at a concrete failing construction. -/
theorem construction_failure_no_side_effects_witness :
    Effects.empty.created = [] ∧ Effects.empty.appended = [] ∧
      Effects.empty.listeners = 0 :=
  construction_failure_no_side_effects ⟨fun _ => none⟩ none
    { container := .selector "#showroom", url := "u" } .containerNotFound
    Effects.empty rfl

/-- C2: every outbound command method fails with the no-content-window
error, posting nothing, when the iframe has no accessible content
window; otherwise it throws nothing and posts exactly one message,
whose target origin is the wildcard. -/
theorem outbound_methods_send (s : ElfsquadShowroom) (m : OutboundMethod) :
    (s.nativeElement.contentWindow = none →
      runMethod s m = { error := some .noContentWindow, posted := [] }) ∧
    (s.nativeElement.contentWindow ≠ none →
      (runMethod s m).error = none ∧
      (runMethod s m).posted.length = 1 ∧
      ∀ p ∈ (runMethod s m).posted, p.targetOrigin = "*") := by
  obtain ⟨⟨src, style, cw⟩, cid, cbs⟩ := s
  cases cw <;> cases m <;>
    simp [runMethod, ElfsquadShowroom.home, ElfsquadShowroom.toggleFootprint,
      ElfsquadShowroom.screenshot, ElfsquadShowroom.changeLanguage,
      ElfsquadShowroom.enableConfigurationUpdates,
      ElfsquadShowroom.disableConfigurationUpdates,
      ElfsquadShowroom.navigateTo, sendMessage]

/-- Witness for C2 on a concrete instance, with and without a content
window. -/
theorem outbound_methods_send_witness :
    (runMethod (sampleShowroom none) .home =
      { error := some .noContentWindow, posted := [] }) ∧
    ((runMethod (sampleShowroom (some ())) (.navigateTo "products")).error = none ∧
     (runMethod (sampleShowroom (some ())) (.navigateTo "products")).posted.length = 1 ∧
     ∀ p ∈ (runMethod (sampleShowroom (some ())) (.navigateTo "products")).posted,
       p.targetOrigin = "*") :=
  ⟨(outbound_methods_send (sampleShowroom none) .home).1 rfl,
   (outbound_methods_send (sampleShowroom (some ())) (.navigateTo "products")).2
     (by simp [sampleShowroom, sampleIframe])⟩

/-- Counterexample for C3: the reset-view method does not post the
envelope name of the table; the posted name is
elfsquad.visualization.home, which differs from visualization.home by
the elfsquad prefix. -/
theorem envelope_table_name_counterexample :
    ((sampleShowroom (some ())).home.posted.map fun p => p.data.name) =
      ["elfsquad.visualization.home"] ∧
    ∀ p ∈ (sampleShowroom (some ())).home.posted,
      p.data.name ≠ "visualization.home" := by
  constructor
  · rfl
  · intro p hp
    simp [sampleShowroom, sampleIframe, ElfsquadShowroom.home, sendMessage] at hp
    simp [hp]

/-- C3 amended: every outbound method posts exactly the envelope of
the table with the elfsquad prefix on the name: home posts
elfsquad.visualization.home with no args, navigateTo posts
elfsquad.navigation.navigateTo with an args object carrying the path
under the url key, and analogously for the other methods. -/
theorem outbound_envelopes (s : ElfsquadShowroom) (iso path : String)
    (h : s.nativeElement.contentWindow ≠ none) :
    s.home.posted =
      [{ data := { name := "elfsquad.visualization.home", args := none },
         targetOrigin := "*" }] ∧
    s.toggleFootprint.posted =
      [{ data := { name := "elfsquad.visualization.toggleFootprint", args := none },
         targetOrigin := "*" }] ∧
    s.screenshot.posted =
      [{ data := { name := "elfsquad.visualization.screenshot", args := none },
         targetOrigin := "*" }] ∧
    (s.changeLanguage iso).posted =
      [{ data := { name := "elfsquad.localization.changeLanguage",
                   args := some (.obj [("languageIso", .str iso)]) },
         targetOrigin := "*" }] ∧
    s.enableConfigurationUpdates.posted =
      [{ data := { name := "elfsquad.enableConfigurationUpdates", args := none },
         targetOrigin := "*" }] ∧
    s.disableConfigurationUpdates.posted =
      [{ data := { name := "elfsquad.disableConfigurationUpdates", args := none },
         targetOrigin := "*" }] ∧
    (s.navigateTo path).posted =
      [{ data := { name := "elfsquad.navigation.navigateTo",
                   args := some (.obj [("url", .str path)]) },
         targetOrigin := "*" }] := by
  obtain ⟨⟨src, style, cw⟩, cid, cbs⟩ := s
  cases cw with
  | none => exact absurd rfl h
  | some w =>
    exact ⟨rfl, rfl, rfl, rfl, rfl, rfl, rfl⟩

/-- Witness for C3 amended on a concrete instance. -/
theorem outbound_envelopes_witness :
    (sampleShowroom (some ())).home.posted =
      [{ data := { name := "elfsquad.visualization.home", args := none },
         targetOrigin := "*" }] ∧
    ((sampleShowroom (some ())).navigateTo "products").posted =
      [{ data := { name := "elfsquad.navigation.navigateTo",
                   args := some (.obj [("url", .str "products")]) },
         targetOrigin := "*" }] :=
  ⟨(outbound_envelopes (sampleShowroom (some ())) "en" "products"
      (by simp [sampleShowroom, sampleIframe])).1,
   (outbound_envelopes (sampleShowroom (some ())) "en" "products"
      (by simp [sampleShowroom, sampleIframe])).2.2.2.2.2.2⟩

/-- Helper: ensureKey distributes over a cons whose key differs. -/
theorem ensureKey_cons (k' : String) (cbs : List Nat) (rest : Registry)
    (k : String) (h : k' ≠ k) :
    ensureKey ((k', cbs) :: rest) k = (k', cbs) :: ensureKey rest k := by
  unfold ensureKey
  simp only [findCallbacks, beq_iff_eq, h, if_false]
  cases findCallbacks rest k <;> simp

/-- Helper: addCallback appends the callback to the subscriber list of
its key. -/
theorem subscribers_addCallback (r : Registry) (k : String) (c : Nat) :
    subscribers (addCallback r k c) k = subscribers r k ++ [c] := by
  induction r with
  | nil => simp [subscribers, addCallback, ensureKey, findCallbacks, pushKey]
  | cons hd rest ih =>
    obtain ⟨k', cbs⟩ := hd
    by_cases h : k' = k
    · subst h
      simp [subscribers, addCallback, ensureKey, findCallbacks, pushKey]
    · rw [addCallback, ensureKey_cons k' cbs rest k h]
      simp only [pushKey, beq_iff_eq, h, if_false]
      simp only [subscribers, findCallbacks, beq_iff_eq, h, if_false]
      exact ih

/-- Helper: folding a subscription sequence over addCallback appends
the sequence to the subscriber list of the key. -/
theorem subscribers_foldl (k : String) (subs : List Nat) (r : Registry) :
    subscribers (subs.foldl (fun acc c => addCallback acc k c) r) k =
      subscribers r k ++ subs := by
  induction subs generalizing r with
  | nil => simp
  | cons c rest ih =>
    simp only [List.foldl_cons]
    rw [ih, subscribers_addCallback]
    simp

/-- Helper: the exception component of forEach is true exactly when
some callback in the array throws. -/
theorem runCallbacks_snd (beh : Nat → Bool) (cbs : List Nat) (d : JSValue) :
    (runCallbacks beh cbs d).2 = cbs.any beh := by
  induction cbs with
  | nil => rfl
  | cons c rest ih =>
    by_cases h : beh c = true
    · simp [runCallbacks, h]
    · simp only [Bool.not_eq_true] at h
      simp [runCallbacks, h, ih]

/-- Helper: forEach over non-throwing callbacks invokes each of them
in order with the given data and raises nothing. -/
theorem runCallbacks_no_throw (beh : Nat → Bool) (cbs : List Nat) (d : JSValue)
    (h : ∀ c ∈ cbs, beh c = false) :
    runCallbacks beh cbs d = (cbs.map fun c => (c, d), false) := by
  induction cbs with
  | nil => rfl
  | cons c rest ih =>
    have hc : beh c = false := h c (by simp)
    have hrest : ∀ x ∈ rest, beh x = false := fun x hx => h x (by simp [hx])
    simp [runCallbacks, hc, ih hrest]

/-- Helper: executeCallbacks on non-throwing callbacks invokes exactly
the current subscribers of the key, in order, with the given data. -/
theorem executeCallbacks_no_throw (beh : Nat → Bool) (r : Registry)
    (key : String) (d : JSValue)
    (h : ∀ c ∈ subscribers r key, beh c = false) :
    executeCallbacks beh r key d =
      ((subscribers r key).map fun c => (c, d), false) := by
  unfold executeCallbacks
  cases hf : findCallbacks r key with
  | none => simp [subscribers, hf]
  | some cbs =>
    have : subscribers r key = cbs := by simp [subscribers, hf]
    rw [this] at h
    simp [this, runCallbacks_no_throw beh cbs d h]

/-- Helper: a structured listener ignores a message whose data is a
plain string (a string has no name property). -/
theorem structuredListener_str (beh : Nat → Bool) (r : Registry)
    (key eventKey : String) (s : String) :
    structuredListener beh r key eventKey (.str s) = ([], false) := by
  simp [structuredListener, JSValue.getPropOpt, JSValue.getProp, JSValue.isStr]

/-- Counterexample for C4: with one quote-request subscriber that
throws, delivering the legacy quotation payload invokes the subscriber
(which throws, since behThrowing holds of every callback), yet no
exception escapes any listener — the legacy listener's catch block
swallows it, contradicting the claim that subscriber exceptions are
never caught by the dispatcher. -/
theorem subscriber_exception_caught_counterexample :
    behThrowing 0 = true ∧
    deliverMessage parseFixture behThrowing
        [(ViewerEvent.RequestQuote, [0])] (.str quotePayload) =
      ([(0, .obj [("configurationId", .str "abc123")])],
       [false, false, false]) :=
  ⟨rfl, rfl⟩

/-- C4 amended: an exception thrown by a subscriber during structured
dispatch is not caught by the component and escapes into the host
event loop; an exception thrown during legacy (quote-request) dispatch
is caught and swallowed by the legacy listener's catch block, which
never lets any exception escape. -/
theorem subscriber_exception_propagation
    (parseJSON : String → Option JSValue) (beh : Nat → Bool) (r : Registry)
    (key : String) (data : JSValue) (c : Nat) :
    ((data.getPropOpt "name").isStr key = true → c ∈ subscribers r key →
      beh c = true → (structuredListener beh r key key data).2 = true) ∧
    (∀ d2 : JSValue, (legacyListener parseJSON beh r d2).2 = false) := by
  constructor
  · intro hname hc hthrow
    unfold structuredListener
    simp only [hname, if_true]
    unfold executeCallbacks
    cases hf : findCallbacks r key with
    | none => simp [subscribers, hf] at hc
    | some cbs =>
      rw [runCallbacks_snd]
      have hs : subscribers r key = cbs := by simp [subscribers, hf]
      rw [hs] at hc
      exact List.any_eq_true.mpr ⟨c, hc, hthrow⟩
  · intro d2
    rfl

/-- Witness for C4 amended: a throwing subscriber makes the structured
listener raise, while the legacy listener never raises. -/
theorem subscriber_exception_propagation_witness :
    (structuredListener behThrowing [(ViewerEvent.ScreenshotTaken, [0])]
        ViewerEvent.ScreenshotTaken ViewerEvent.ScreenshotTaken
        (.obj [("name", .str ViewerEvent.ScreenshotTaken), ("args", .null)])).2 =
      true ∧
    (legacyListener parseFixture behThrowing [(ViewerEvent.ScreenshotTaken, [0])]
        (.str quotePayload)).2 = false :=
  ⟨(subscriber_exception_propagation parseFixture behThrowing
      [(ViewerEvent.ScreenshotTaken, [0])] ViewerEvent.ScreenshotTaken
      (.obj [("name", .str ViewerEvent.ScreenshotTaken), ("args", .null)]) 0).1
      rfl (by decide) rfl,
   (subscriber_exception_propagation parseFixture behThrowing
      [(ViewerEvent.ScreenshotTaken, [0])] ViewerEvent.ScreenshotTaken
      (.obj [("name", .str ViewerEvent.ScreenshotTaken), ("args", .null)]) 0).2
      (.str quotePayload)⟩

/-- C5: delivering a raw string payload that parses to an object whose
action field is createQuotation and whose argument field is the string
cid invokes every quote-request subscriber, in order, with an object
carrying cid under configurationId; a payload parsing to any other
action value invokes no subscriber; a payload that does not parse as
JSON raises no error and dispatches nothing. -/
theorem legacy_message_dispatch (parseJSON : String → Option JSValue)
    (beh : Nat → Bool) (r : Registry) (payload : String) :
    (∀ json cid, parseJSON payload = some json →
      json.getPropExc "action" = .ok (.str "createQuotation") →
      json.getPropExc "argument" = .ok (.str cid) →
      (∀ c ∈ subscribers r ViewerEvent.RequestQuote, beh c = false) →
      deliverMessage parseJSON beh r (.str payload) =
        ((subscribers r ViewerEvent.RequestQuote).map
           fun c => (c, .obj [("configurationId", .str cid)]),
         [false, false, false])) ∧
    (∀ json a, parseJSON payload = some json →
      json.getPropExc "action" = .ok a → a.isStr "createQuotation" = false →
      deliverMessage parseJSON beh r (.str payload) =
        ([], [false, false, false])) ∧
    (parseJSON payload = none →
      deliverMessage parseJSON beh r (.str payload) =
        ([], [false, false, false])) := by
  refine ⟨fun json cid hp ha harg hb => ?_, fun json a hp ha hne => ?_,
    fun hp => ?_⟩
  · unfold deliverMessage
    rw [structuredListener_str, structuredListener_str]
    unfold legacyListener legacyListenerBody
    simp only [JSValue.coerceToString, hp, ha, harg]
    rw [executeCallbacks_no_throw beh r ViewerEvent.RequestQuote
      (.obj [("configurationId", .str cid)]) hb]
    simp [JSValue.isStr]
  · unfold deliverMessage
    rw [structuredListener_str, structuredListener_str]
    unfold legacyListener legacyListenerBody
    simp [JSValue.coerceToString, hp, ha, hne]
  · unfold deliverMessage
    rw [structuredListener_str, structuredListener_str]
    unfold legacyListener legacyListenerBody
    simp [JSValue.coerceToString, hp]

/-- Witness for C5 on concrete payloads and a concrete parse oracle:
the quotation payload dispatches configurationId abc123 to the one
registered quote subscriber, the other-action payload dispatches
nothing, and an unparseable payload dispatches nothing. -/
theorem legacy_message_dispatch_witness :
    deliverMessage parseFixture behCalm [(ViewerEvent.RequestQuote, [0])]
        (.str quotePayload) =
      ([(0, .obj [("configurationId", .str "abc123")])],
       [false, false, false]) ∧
    deliverMessage parseFixture behCalm [(ViewerEvent.RequestQuote, [0])]
        (.str otherActionPayload) =
      ([], [false, false, false]) ∧
    deliverMessage parseFixture behCalm [(ViewerEvent.RequestQuote, [0])]
        (.str "hello") =
      ([], [false, false, false]) :=
  ⟨(legacy_message_dispatch parseFixture behCalm
      [(ViewerEvent.RequestQuote, [0])] quotePayload).1
      (.obj [("action", .str "createQuotation"), ("argument", .str "abc123")])
      "abc123" rfl rfl rfl (fun _ _ => rfl),
   (legacy_message_dispatch parseFixture behCalm
      [(ViewerEvent.RequestQuote, [0])] otherActionPayload).2.1
      (.obj [("action", .str "other")]) (.str "other") rfl rfl rfl,
   (legacy_message_dispatch parseFixture behCalm
      [(ViewerEvent.RequestQuote, [0])] "hello").2.2 rfl⟩

/-- C6: subscribing any sequence of callbacks to an event accumulates
them, without error, after any already present subscribers; delivering
one matching structured message then invokes all subscribers of the
event, in registration order, each with the same args payload. -/
theorem structured_dispatch_accumulate (beh : Nat → Bool) (r0 : Registry)
    (k : String) (subs : List Nat) (data : JSValue)
    (hname : (data.getPropOpt "name").isStr k = true)
    (hb : ∀ c ∈ subscribers r0 k ++ subs, beh c = false) :
    subscribers (subs.foldl (fun acc c => addCallback acc k c) r0) k =
      subscribers r0 k ++ subs ∧
    structuredListener beh (subs.foldl (fun acc c => addCallback acc k c) r0)
        k k data =
      ((subscribers r0 k ++ subs).map fun c => (c, data.getProp "args"),
       false) := by
  have hacc := subscribers_foldl k subs r0
  refine ⟨hacc, ?_⟩
  unfold structuredListener
  simp only [hname, if_true]
  rw [executeCallbacks_no_throw _ _ _ _ (by rw [hacc]; exact hb)]
  rw [hacc]

/-- Witness for C6: two callbacks subscribed in order to one event,
then one matching structured delivery invokes both, in order, with the
same payload. -/
theorem structured_dispatch_accumulate_witness :
    subscribers ([0, 1].foldl
        (fun acc c => addCallback acc ViewerEvent.ScreenshotTaken c) [])
        ViewerEvent.ScreenshotTaken = [0, 1] ∧
    structuredListener behCalm
        ([0, 1].foldl
          (fun acc c => addCallback acc ViewerEvent.ScreenshotTaken c) [])
        ViewerEvent.ScreenshotTaken ViewerEvent.ScreenshotTaken
        (.obj [("name", .str ViewerEvent.ScreenshotTaken), ("args", .null)]) =
      ([(0, .null), (1, .null)], false) :=
  (structured_dispatch_accumulate behCalm [] ViewerEvent.ScreenshotTaken
    [0, 1]
    (.obj [("name", .str ViewerEvent.ScreenshotTaken), ("args", .null)])
    rfl (fun _ _ => rfl))

/-- C8: a structured message whose name is none of the recognized
event names triggers no callback invocation and raises no error,
whatever subscribers are registered. -/
theorem unrecognized_structured_message (parseJSON : String → Option JSValue)
    (beh : Nat → Bool) (r : Registry) (name : String)
    (fields : List (String × JSValue))
    (h1 : name ≠ ViewerEvent.ScreenshotTaken)
    (h2 : name ≠ ViewerEvent.ConfigurationUpdated)
    (hp : parseJSON "[object Object]" = none) :
    deliverMessage parseJSON beh r (.obj (("name", .str name) :: fields)) =
      ([], [false, false, false]) := by
  unfold deliverMessage
  have hn : ∀ k : String, name ≠ k →
      structuredListener beh r k k (.obj (("name", .str name) :: fields)) =
        ([], false) := by
    intro k hk
    simp [structuredListener, JSValue.getPropOpt, JSValue.getProp,
      List.lookup, JSValue.isStr, hk]
  rw [hn ViewerEvent.ScreenshotTaken h1, hn ViewerEvent.ConfigurationUpdated h2]
  unfold legacyListener legacyListenerBody
  simp [JSValue.coerceToString, hp]

/-- Witness for C8: a message named elfsquad.unknown is ignored even
with subscribers registered for every event. -/
theorem unrecognized_structured_message_witness :
    deliverMessage parseFixture behCalm
        [(ViewerEvent.ScreenshotTaken, [0]),
         (ViewerEvent.ConfigurationUpdated, [1]),
         (ViewerEvent.RequestQuote, [2])]
        (.obj [("name", .str "elfsquad.unknown"), ("args", .null)]) =
      ([], [false, false, false]) :=
  unrecognized_structured_message parseFixture behCalm
    [(ViewerEvent.ScreenshotTaken, [0]),
     (ViewerEvent.ConfigurationUpdated, [1]),
     (ViewerEvent.RequestQuote, [2])]
    "elfsquad.unknown" [("args", .null)] (by decide) (by decide) rfl

/-- C9: delivering the same message n times yields, for each of the n
deliveries, exactly the invocation list of a single delivery against
the current registry — no deduplication, no dependence on message
history; in particular, for a recognized structured message with
non-throwing subscribers, each of the n deliveries invokes the full
current subscriber set. -/
theorem repeated_delivery_no_dedup (parseJSON : String → Option JSValue)
    (beh : Nat → Bool) (r : Registry) (d : JSValue) (n : Nat) :
    deliverSeq parseJSON beh r (List.replicate n d) =
      List.replicate n (deliverMessage parseJSON beh r d).1 ∧
    ((d.getPropOpt "name").isStr ViewerEvent.ScreenshotTaken = true →
     (d.getPropOpt "name").isStr ViewerEvent.ConfigurationUpdated = false →
     parseJSON d.coerceToString = none →
     (∀ c ∈ subscribers r ViewerEvent.ScreenshotTaken, beh c = false) →
     deliverSeq parseJSON beh r (List.replicate n d) =
       List.replicate n ((subscribers r ViewerEvent.ScreenshotTaken).map
         fun c => (c, d.getProp "args"))) := by
  have hrep : deliverSeq parseJSON beh r (List.replicate n d) =
      List.replicate n (deliverMessage parseJSON beh r d).1 := by
    induction n with
    | zero => rfl
    | succ m ih => simp [List.replicate_succ, deliverSeq, ih]
  refine ⟨hrep, fun h1 h2 h3 hb => ?_⟩
  rw [hrep]
  have hone : (deliverMessage parseJSON beh r d).1 =
      (subscribers r ViewerEvent.ScreenshotTaken).map
        fun c => (c, d.getProp "args") := by
    unfold deliverMessage
    simp only [structuredListener, h1, if_true, h2, if_false]
    rw [executeCallbacks_no_throw _ _ _ _ hb]
    unfold legacyListener legacyListenerBody
    simp [h3]
  rw [hone]

/-- Witness for C9 with n = 2: both deliveries of the same structured
message invoke the full current subscriber set. -/
theorem repeated_delivery_no_dedup_witness :
    deliverSeq parseFixture behCalm [(ViewerEvent.ScreenshotTaken, [0, 1])]
        (List.replicate 2
          (.obj [("name", .str ViewerEvent.ScreenshotTaken), ("args", .null)])) =
      List.replicate 2 [(0, .null), (1, .null)] :=
  (repeated_delivery_no_dedup parseFixture behCalm
    [(ViewerEvent.ScreenshotTaken, [0, 1])]
    (.obj [("name", .str ViewerEvent.ScreenshotTaken), ("args", .null)]) 2).2
    rfl rfl rfl (fun _ _ => rfl)

/-- C10: a recognized message whose event has no registered callbacks
is a no-op: no callback runs, no exception escapes, the registry is
returned unchanged and still has no entry for the event. Stated for
each recognized message kind: the two structured events and the legacy
quotation message. -/
theorem dispatch_without_callbacks_noop (parseJSON : String → Option JSValue)
    (beh : Nat → Bool) (r : Registry) (data : JSValue) :
    (findCallbacks r ViewerEvent.ScreenshotTaken = none →
     (data.getPropOpt "name").isStr ViewerEvent.ScreenshotTaken = true →
     (data.getPropOpt "name").isStr ViewerEvent.ConfigurationUpdated = false →
     parseJSON data.coerceToString = none →
     onMessage parseJSON beh r data = (r, [], [false, false, false]) ∧
     findCallbacks (onMessage parseJSON beh r data).1
       ViewerEvent.ScreenshotTaken = none) ∧
    (findCallbacks r ViewerEvent.ConfigurationUpdated = none →
     (data.getPropOpt "name").isStr ViewerEvent.ConfigurationUpdated = true →
     (data.getPropOpt "name").isStr ViewerEvent.ScreenshotTaken = false →
     parseJSON data.coerceToString = none →
     onMessage parseJSON beh r data = (r, [], [false, false, false]) ∧
     findCallbacks (onMessage parseJSON beh r data).1
       ViewerEvent.ConfigurationUpdated = none) ∧
    (findCallbacks r ViewerEvent.RequestQuote = none →
     ∀ payload : String, ∀ json : JSValue,
       data = .str payload →
       parseJSON payload = some json →
       json.getPropExc "action" = .ok (.str "createQuotation") →
       onMessage parseJSON beh r data = (r, [], [false, false, false]) ∧
       findCallbacks (onMessage parseJSON beh r data).1
         ViewerEvent.RequestQuote = none) := by
  refine ⟨fun hf h1 h2 h3 => ⟨?_, hf⟩, fun hf h1 h2 h3 => ⟨?_, hf⟩,
    fun hf payload json hd hp ha => ⟨?_, hf⟩⟩
  · unfold onMessage deliverMessage
    simp only [structuredListener, h1, if_true, h2, if_false]
    unfold executeCallbacks
    rw [hf]
    unfold legacyListener legacyListenerBody
    simp [h3]
  · unfold onMessage deliverMessage
    simp only [structuredListener, h1, if_true, h2, if_false]
    unfold executeCallbacks
    rw [hf]
    unfold legacyListener legacyListenerBody
    simp [h3]
  · subst hd
    unfold onMessage deliverMessage
    rw [structuredListener_str, structuredListener_str]
    unfold legacyListener legacyListenerBody
    simp only [JSValue.coerceToString, hp, ha]
    unfold executeCallbacks
    rw [hf]
    simp only [JSValue.isStr, beq_self_eq_true, Bool.not_true, if_false]
    cases json.getPropExc "argument" <;> rfl

/-- Witness for C10: the three recognized message kinds against an
empty registry. -/
theorem dispatch_without_callbacks_noop_witness :
    (onMessage parseFixture behCalm []
       (.obj [("name", .str ViewerEvent.ScreenshotTaken), ("args", .null)]) =
       ([], [], [false, false, false]) ∧
     findCallbacks [] ViewerEvent.ScreenshotTaken = none) ∧
    (onMessage parseFixture behCalm []
       (.obj [("name", .str ViewerEvent.ConfigurationUpdated), ("args", .null)]) =
       ([], [], [false, false, false]) ∧
     findCallbacks [] ViewerEvent.ConfigurationUpdated = none) ∧
    (onMessage parseFixture behCalm [] (.str quotePayload) =
       ([], [], [false, false, false]) ∧
     findCallbacks [] ViewerEvent.RequestQuote = none) :=
  ⟨(dispatch_without_callbacks_noop parseFixture behCalm []
      (.obj [("name", .str ViewerEvent.ScreenshotTaken), ("args", .null)])).1
      rfl rfl rfl rfl,
   (dispatch_without_callbacks_noop parseFixture behCalm []
      (.obj [("name", .str ViewerEvent.ConfigurationUpdated), ("args", .null)])).2.1
      rfl rfl rfl rfl,
   (dispatch_without_callbacks_noop parseFixture behCalm []
      (.str quotePayload)).2.2 rfl quotePayload
      (.obj [("action", .str "createQuotation"), ("argument", .str "abc123")])
      rfl rfl rfl⟩
